import Mathlib

/-!
Verification development for the webchan package: a wrapper turning a raw
socket into a typed message channel.  Outgoing values are framed as a type
name followed by the JSON-encoded payload; two worker loops (send routine,
recv routine) move data between the caller-facing queues and the stream.

The embedding below models the registry, the frame wire format, the two
worker loops, the lossy error queue and the lifecycle operation Close,
translated from src/webchan.go.  The JSON codec and the socket are external
collaborators; they are abstracted at the granularity of one self-delimited
serialized value per stream operation (a wire item), with an oracle for
write failures and explicit bad items for read failures.
-/

namespace Webchan

/-- Runtime type descriptor, standing for a reflect.Type.  Two descriptors
are the same type exactly when they are structurally equal; tname is the
string printed by the %T format verb for values of this type. -/
structure GoType where
  id : Nat
  tname : String
deriving DecidableEq, Repr

/-- A runtime value, standing for an interface value: its dynamic type
together with an abstract payload identity. -/
structure GoValue where
  type : GoType
  payload : Nat
deriving DecidableEq, Repr

/-- Errors returned by stream and codec operations.  The eof and errClosed
constructors stand for io.EOF and net.ErrClosed (as matched by errors.Is);
errorf stands for an error built with a formatted message; other stands for
an arbitrary transport or codec error. -/
inductive GoErr where
  | eof
  | errClosed
  | errorf (msg : String)
  | other (code : Nat)
deriving DecidableEq, Repr

/-- Classification used by the recv routine: errors.Is(err, net.ErrClosed)
or errors.Is(err, io.EOF). -/
def GoErr.isStreamClosed : GoErr → Bool
  | .eof => true
  | .errClosed => true
  | _ => false

/-- The sendError wrapper from the source: wraps an error arising on the
send path. -/
structure sendError where
  Err : GoErr
deriving DecidableEq, Repr

/-- The recvError wrapper from the source: wraps an error arising on the
receive path. -/
structure recvError where
  Err : GoErr
deriving DecidableEq, Repr

/-- A value carried on the error channel or by a panic: in the source both
loops only ever produce *sendError or *recvError values. -/
inductive ErrVal where
  | send (e : sendError)
  | recv (e : recvError)
deriving DecidableEq, Repr

/-- Whether an error value is a Send-Error value (a sendError). -/
def ErrVal.isSendError : ErrVal → Bool
  | .send _ => true
  | .recv _ => false

/-- The allowedTypes registry: a name-to-descriptor mapping (the Go map
map[string]reflect.Type, modelled as an association list). -/
abbrev Registry := List (String × GoType)

/-- getAllowedTypeName from the source: scan the registered descriptors for
one equal to the value's runtime type and return its name. -/
def getAllowedTypeName (reg : Registry) (data : GoValue) : Option String :=
  (reg.find? (fun kv => kv.2 == data.type)).map (fun kv => kv.1)

/-- createTypeInterfaceReflectPointer from the source: look the name up in
the registry; on success the source allocates a fresh zero value of the
descriptor (reflect.New), so the model returns the descriptor itself. -/
def createTypeInterfaceReflectPointer (reg : Registry) (typeName : String) :
    Option GoType :=
  (reg.find? (fun kv => kv.1 == typeName)).map (fun kv => kv.2)

/-- One self-delimited serialized value on the stream: a JSON string (as
written for a type name), the encoding of a runtime value, or a corrupt or
failing read yielding the given error. -/
inductive WireTok where
  | jstr (s : String)
  | jval (v : GoValue)
  | jbad (e : GoErr)
deriving DecidableEq, Repr

/-- Capacity of the error channel in the constructor: make(chan error, 100). -/
def errChanCap : Nat := 100

/-- tryPushError from the source: a select with a default case, so the push
either enqueues immediately or drops the error; it never blocks. -/
def tryPushError (q : List ErrVal) (e : ErrVal) : List ErrVal :=
  if q.length < errChanCap then q ++ [e] else q

/-- Go map assignment m[k] = t on an association list: overwrite the entry
if the key is present, otherwise append a new entry. -/
def mapInsert (m : Registry) (k : String) (t : GoType) : Registry :=
  if m.any (fun kv => kv.1 == k) then
    m.map (fun kv => if kv.1 == k then (k, t) else kv)
  else
    m ++ [(k, t)]

/-- The registry built by NewWebChan: each prototype value is stored under
the name printed by %T for it, by Go map assignment (duplicates overwrite). -/
def newWebChanRegistry (allowedTypes : List GoValue) : Registry :=
  allowedTypes.foldl (fun m v => mapInsert m v.type.tname v.type) []

/-- The channel instance state visible to the lifecycle operation: queue
capacities, the registry, which of the closable resources have been closed,
and how many times the socket's Close method has been invoked. -/
structure WebChan where
  sendCap : Nat
  recvCap : Nat
  errCap : Nat
  allowedTypes : Registry
  closeRecvClosed : Bool
  sendClosed : Bool
  socClosed : Bool
  socCloseCount : Nat
deriving DecidableEq, Repr

/-- NewNamedWebChan from the source: both data queues get the caller's
buffer length, the error channel gets capacity 100, and the registry is the
given name-to-type mapping; nothing is closed yet. -/
def NewNamedWebChan (bufLength : Nat) (allowedTypes : Registry) : WebChan :=
  { sendCap := bufLength
    recvCap := bufLength
    errCap := errChanCap
    allowedTypes := allowedTypes
    closeRecvClosed := false
    sendClosed := false
    socClosed := false
    socCloseCount := 0 }

/-- NewWebChan from the source: derive each prototype's name with %T, build
the map by Go map assignment, and construct the channel. -/
def NewWebChan (bufLength : Nat) (allowedTypes : List GoValue) : WebChan :=
  NewNamedWebChan bufLength (newWebChanRegistry allowedTypes)

/-- Close from the source: a select on closeRecvChan with a default case.
If closeRecvChan is already closed the receive fires with ok = false and
the method returns; otherwise the default case closes closeRecvChan, closes
the Send channel and closes the socket. -/
def WebChan.Close (wc : WebChan) : WebChan :=
  if wc.closeRecvClosed then wc
  else
    { wc with
      closeRecvClosed := true
      sendClosed := true
      socClosed := true
      socCloseCount := wc.socCloseCount + 1 }

/-- Outcome of a Go channel send statement. -/
inductive ChanSendOutcome where
  | panicked
  | enqueued
  | blocked
deriving DecidableEq, Repr

/-- Go language semantics of a send on a buffered channel: a send on a
closed channel panics; otherwise it enqueues if the buffer has room and
blocks if the buffer is full. -/
def goChanSend (closed : Bool) (len cap : Nat) : ChanSendOutcome :=
  if closed then ChanSendOutcome.panicked
  else if len < cap then ChanSendOutcome.enqueued
  else ChanSendOutcome.blocked

/-- State threaded through the send routine: the wire items written so far,
the error queue contents, how many encoder calls have been made (indexing
the write-failure oracle), and how many queue items have been processed. -/
structure SendState where
  wire : List WireTok
  errq : List ErrVal
  encCalls : Nat
  processed : Nat
deriving DecidableEq, Repr

/-- One iteration of the send routine body on a dequeued value, given the
write-failure oracle enc (outcome of the k-th encoder call).  Mirrors the
source: resolve the name first and panic on failure before any encoding;
otherwise encode the name, then on success encode the value, and on either
failure push a sendError and continue.  Sum.inr is the panic. -/
def sendStep (reg : Registry) (enc : Nat → Option GoErr) (s : SendState)
    (data : GoValue) : SendState ⊕ ErrVal :=
  match getAllowedTypeName reg data with
  | none =>
      Sum.inr (ErrVal.send ⟨GoErr.errorf ("type not allowed: " ++ data.type.tname)⟩)
  | some typeName =>
      match enc s.encCalls with
      | some e =>
          Sum.inl { s with
            errq := tryPushError s.errq (ErrVal.send ⟨e⟩)
            encCalls := s.encCalls + 1
            processed := s.processed + 1 }
      | none =>
          match enc (s.encCalls + 1) with
          | some e =>
              Sum.inl { s with
                wire := s.wire ++ [WireTok.jstr typeName]
                errq := tryPushError s.errq (ErrVal.send ⟨e⟩)
                encCalls := s.encCalls + 2
                processed := s.processed + 1 }
          | none =>
              Sum.inl { s with
                wire := s.wire ++ [WireTok.jstr typeName, WireTok.jval data]
                encCalls := s.encCalls + 2
                processed := s.processed + 1 }

/-- The send routine: drain the outbound queue (its contents up to the point
it is closed) in FIFO order; return the final state, and the panic value if
an unregistered value was dequeued (at which point the routine dies). -/
def sendLoop (reg : Registry) (enc : Nat → Option GoErr) :
    SendState → List GoValue → SendState × Option ErrVal
  | s, [] => (s, none)
  | s, data :: rest =>
      match sendStep reg enc s data with
      | Sum.inr p => (s, some p)
      | Sum.inl s2 => sendLoop reg enc s2 rest

/-- The write-failure oracle under which every encoder call succeeds. -/
def encOk : Nat → Option GoErr := fun _ => none

/-- decoder.Decode(&typeName): read the next serialized value off the wire
into a string.  End of stream yields io.EOF; a non-string value is consumed
and yields an unmarshalling error; a bad item yields its error. -/
def decodeString : List WireTok → Except GoErr String × List WireTok
  | [] => (Except.error GoErr.eof, [])
  | WireTok.jstr s :: rest => (Except.ok s, rest)
  | WireTok.jval _ :: rest =>
      (Except.error (GoErr.errorf "cannot unmarshal value into string"), rest)
  | WireTok.jbad e :: rest => (Except.error e, rest)

/-- decoder.Decode(data.Interface()): read the next serialized value off the
wire into a fresh instance of type t.  End of stream yields io.EOF; a value
of the right dynamic type decodes to itself; anything else is consumed and
yields an unmarshalling error; a bad item yields its error. -/
def decodeInto (t : GoType) : List WireTok → Except GoErr GoValue × List WireTok
  | [] => (Except.error GoErr.eof, [])
  | WireTok.jval v :: rest =>
      if v.type == t then (Except.ok v, rest)
      else (Except.error (GoErr.errorf "cannot unmarshal value into instance"), rest)
  | WireTok.jstr _ :: rest =>
      (Except.error (GoErr.errorf "cannot unmarshal string into instance"), rest)
  | WireTok.jbad e :: rest => (Except.error e, rest)

/-- State threaded through the recv routine: the wire items not yet read,
the error queue contents, the values delivered to the Recv channel, and how
many times the deferred close of the Recv channel has run. -/
structure RecvState where
  wire : List WireTok
  errq : List ErrVal
  delivered : List GoValue
  recvCloseCount : Nat
deriving DecidableEq, Repr

/-- Result of one iteration of the recv routine: either the loop returns
(term) or it proceeds to the next iteration (cont). -/
inductive IterOut where
  | term (s : RecvState)
  | cont (s : RecvState)
deriving DecidableEq, Repr

/-- One iteration of the recv routine body, with shut the state of the
closeRecvChan shutdown signal observed by the select.  Mirrors the source:
check the signal, read a type name, classify read errors into stream-closed
(terminate) versus other (report and continue), resolve the name (report and
continue on failure, without touching the payload item), decode the payload
with the same error classification, and deliver the decoded value. -/
def recvIter (reg : Registry) (shut : Bool) (s : RecvState) : IterOut :=
  if shut then IterOut.term s
  else
    match decodeString s.wire with
    | (Except.error e, wire2) =>
        if e.isStreamClosed then IterOut.term { s with wire := wire2 }
        else IterOut.cont { s with
          wire := wire2
          errq := tryPushError s.errq (ErrVal.recv ⟨e⟩) }
    | (Except.ok typeName, wire2) =>
        match createTypeInterfaceReflectPointer reg typeName with
        | none =>
            IterOut.cont { s with
              wire := wire2
              errq := tryPushError s.errq
                (ErrVal.recv ⟨GoErr.errorf ("type not allowed: " ++ typeName)⟩) }
        | some t =>
            match decodeInto t wire2 with
            | (Except.error e, wire3) =>
                if e.isStreamClosed then IterOut.term { s with wire := wire3 }
                else IterOut.cont { s with
                  wire := wire3
                  errq := tryPushError s.errq (ErrVal.recv ⟨e⟩) }
            | (Except.ok v, wire3) =>
                IterOut.cont { s with
                  wire := wire3
                  delivered := s.delivered ++ [v] }

/-- The recv routine with explicit fuel: iterate recvIter until the loop
returns, at which point the deferred close(wc.Recv) runs, incrementing the
close count.  Exhausted fuel leaves the state as is; every theorem below
supplies fuel exceeding the wire length, which always suffices. -/
def recvLoopF (reg : Registry) (shut : Bool) : Nat → RecvState → RecvState
  | 0, s => s
  | fuel + 1, s =>
      match recvIter reg shut s with
      | IterOut.term s2 => { s2 with recvCloseCount := s2.recvCloseCount + 1 }
      | IterOut.cont s2 => recvLoopF reg shut fuel s2

/-- The recv routine run to completion on its wire: one unit of fuel per
wire item plus one final iteration always suffices, since every iteration
that continues consumes at least one wire item. -/
def recvLoop (reg : Registry) (shut : Bool) (s : RecvState) : RecvState :=
  recvLoopF reg shut (s.wire.length + 1) s

/-- A fresh send-routine state: nothing written, no errors, no calls. -/
def sendState0 : SendState := ⟨[], [], 0, 0⟩

/-- A fresh recv-routine state over the given wire. -/
def recvState0 (wire : List WireTok) : RecvState := ⟨wire, [], [], 0⟩

/-- The frame the send routine writes for one value: the resolved type name
followed by the encoded payload. -/
def frameOf (reg : Registry) (v : GoValue) : List WireTok :=
  [WireTok.jstr ((getAllowedTypeName reg v).getD ""), WireTok.jval v]

/-- The wire contents produced by sending a list of values in order. -/
def framesOf (reg : Registry) : List GoValue → List WireTok
  | [] => []
  | v :: rest => frameOf reg v ++ framesOf reg rest

/-- Sample type standing for the Go string type. -/
def tString : GoType := ⟨0, "string"⟩

/-- Sample type standing for a struct type webchan.Point. -/
def tPoint : GoType := ⟨1, "webchan.Point"⟩

/-- Sample value of the string type. -/
def vHello : GoValue := ⟨tString, 10⟩

/-- Sample value of the struct type. -/
def vPoint : GoValue := ⟨tPoint, 12⟩

/-- Sample registry from the spec scenario: greeting maps to the string
type and point maps to the struct type. -/
def reg1 : Registry := [("greeting", tString), ("point", tPoint)]

/-- Sample registry with only the string type registered. -/
def regStr : Registry := [("string", tString)]

/-- The wire produced by sending a list is twice as long as the list. -/
lemma framesOf_length (reg : Registry) :
    ∀ vals : List GoValue, (framesOf reg vals).length = 2 * vals.length
  | [] => rfl
  | v :: rest => by
      simp [framesOf, frameOf, framesOf_length reg rest]
      omega

/-- Under a write oracle that never fails, the send routine drains the whole
queue without panicking, writes exactly the frames of the queued values in
enqueue order, and reports no errors. -/
lemma sendLoop_encOk_spec (reg : Registry) :
    ∀ (vals : List GoValue) (s : SendState),
      (∀ v ∈ vals, (getAllowedTypeName reg v).isSome = true) →
      (sendLoop reg encOk s vals).2 = none ∧
      (sendLoop reg encOk s vals).1.wire = s.wire ++ framesOf reg vals ∧
      (sendLoop reg encOk s vals).1.errq = s.errq := by
  intro vals
  induction vals with
  | nil => intro s _; simp [sendLoop, framesOf]
  | cons v rest ih =>
      intro s h
      obtain ⟨name, hname⟩ :=
        Option.isSome_iff_exists.mp (h v (by simp))
      have ih2 := ih { s with
        wire := s.wire ++ [WireTok.jstr name, WireTok.jval v]
        encCalls := s.encCalls + 2
        processed := s.processed + 1 } (fun w hw => h w (by simp [hw]))
      simp only [sendLoop, sendStep, hname, encOk] at ih2 ⊢
      refine ⟨ih2.1, ?_, ih2.2.2⟩
      rw [ih2.2.1]
      simp [framesOf, frameOf, hname]

/-- Whatever the write oracle does, the send routine processes the entire
queue (one item per iteration) and never panics, as long as every queued
value is registered: write failures never terminate it. -/
lemma sendLoop_processed (reg : Registry) (enc : Nat → Option GoErr) :
    ∀ (vals : List GoValue) (s : SendState),
      (∀ v ∈ vals, (getAllowedTypeName reg v).isSome = true) →
      (sendLoop reg enc s vals).2 = none ∧
      (sendLoop reg enc s vals).1.processed = s.processed + vals.length := by
  intro vals
  induction vals with
  | nil => intro s _; simp [sendLoop]
  | cons v rest ih =>
      intro s h
      obtain ⟨name, hname⟩ :=
        Option.isSome_iff_exists.mp (h v (by simp))
      have hrest : ∀ w ∈ rest, (getAllowedTypeName reg w).isSome = true :=
        fun w hw => h w (by simp [hw])
      cases h1 : enc s.encCalls with
      | some e =>
          have ih2 := ih { s with
            errq := tryPushError s.errq (ErrVal.send ⟨e⟩)
            encCalls := s.encCalls + 1
            processed := s.processed + 1 } hrest
          simp only [sendLoop, sendStep, hname, h1] at ih2 ⊢
          refine ⟨ih2.1, ?_⟩
          rw [ih2.2]
          simp
          omega
      | none =>
          cases h2 : enc (s.encCalls + 1) with
          | some e =>
              have ih2 := ih { s with
                wire := s.wire ++ [WireTok.jstr name]
                errq := tryPushError s.errq (ErrVal.send ⟨e⟩)
                encCalls := s.encCalls + 2
                processed := s.processed + 1 } hrest
              simp only [sendLoop, sendStep, hname, h1, h2] at ih2 ⊢
              refine ⟨ih2.1, ?_⟩
              rw [ih2.2]
              simp
              omega
          | none =>
              have ih2 := ih { s with
                wire := s.wire ++ [WireTok.jstr name, WireTok.jval v]
                encCalls := s.encCalls + 2
                processed := s.processed + 1 } hrest
              simp only [sendLoop, sendStep, hname, h1, h2] at ih2 ⊢
              refine ⟨ih2.1, ?_⟩
              rw [ih2.2]
              simp
              omega

/-- An iteration of the recv routine that returns leaves the deferred close
count untouched; the increment happens in the loop wrapper. -/
lemma recvIter_term_count {reg : Registry} {shut : Bool} {s s2 : RecvState}
    (h : recvIter reg shut s = IterOut.term s2) :
    s2.recvCloseCount = s.recvCloseCount := by
  unfold recvIter at h
  split at h
  · injection h with h2
    rw [← h2]
  · split at h
    · split at h
      · injection h with h2
        rw [← h2]
      · exact IterOut.noConfusion h
    · split at h
      · exact IterOut.noConfusion h
      · split at h
        · split at h
          · injection h with h2
            rw [← h2]
          · exact IterOut.noConfusion h
        · exact IterOut.noConfusion h

/-- An iteration of the recv routine that continues leaves the deferred
close count untouched. -/
lemma recvIter_cont_count {reg : Registry} {shut : Bool} {s s2 : RecvState}
    (h : recvIter reg shut s = IterOut.cont s2) :
    s2.recvCloseCount = s.recvCloseCount := by
  unfold recvIter at h
  split at h
  · exact IterOut.noConfusion h
  · split at h
    · split at h
      · exact IterOut.noConfusion h
      · injection h with h2
        rw [← h2]
    · split at h
      · injection h with h2
        rw [← h2]
      · split at h
        · split at h
          · exact IterOut.noConfusion h
          · injection h with h2
            rw [← h2]
        · injection h with h2
          rw [← h2]

/-- An iteration of the recv routine that continues has consumed at least
one wire item: the loop always makes progress through the stream. -/
lemma recvIter_cont_wire_lt (reg : Registry) (s s2 : RecvState)
    (h : recvIter reg false s = IterOut.cont s2) :
    s2.wire.length < s.wire.length := by
  obtain ⟨wire, errq, delivered, cnt⟩ := s
  obtain ⟨wire2, errq2, delivered2, cnt2⟩ := s2
  cases wire with
  | nil => simp [recvIter, decodeString, GoErr.isStreamClosed] at h
  | cons tok rest =>
      cases tok with
      | jstr nm =>
          cases hc : createTypeInterfaceReflectPointer reg nm with
          | none =>
              simp [recvIter, decodeString, hc] at h
              obtain ⟨h1, -⟩ := h
              subst h1
              simp
          | some t =>
              cases rest with
              | nil =>
                  simp [recvIter, decodeString, hc, decodeInto,
                        GoErr.isStreamClosed] at h
              | cons tok2 rest2 =>
                  cases tok2 with
                  | jstr nm2 =>
                      simp [recvIter, decodeString, hc, decodeInto,
                            GoErr.isStreamClosed] at h
                      obtain ⟨h1, -⟩ := h
                      subst h1
                      simp
                      omega
                  | jval v =>
                      cases ht : v.type == t with
                      | true =>
                          simp [recvIter, decodeString, hc, decodeInto, ht] at h
                          obtain ⟨h1, -⟩ := h
                          subst h1
                          simp
                          omega
                      | false =>
                          simp [recvIter, decodeString, hc, decodeInto, ht,
                                GoErr.isStreamClosed] at h
                          obtain ⟨h1, -⟩ := h
                          subst h1
                          simp
                          omega
                  | jbad e =>
                      cases e with
                      | eof =>
                          simp [recvIter, decodeString, hc, decodeInto,
                                GoErr.isStreamClosed] at h
                      | errClosed =>
                          simp [recvIter, decodeString, hc, decodeInto,
                                GoErr.isStreamClosed] at h
                      | errorf msg =>
                          simp [recvIter, decodeString, hc, decodeInto,
                                GoErr.isStreamClosed] at h
                          obtain ⟨h1, -⟩ := h
                          subst h1
                          simp
                          omega
                      | other code =>
                          simp [recvIter, decodeString, hc, decodeInto,
                                GoErr.isStreamClosed] at h
                          obtain ⟨h1, -⟩ := h
                          subst h1
                          simp
                          omega
      | jval v =>
          simp [recvIter, decodeString, GoErr.isStreamClosed] at h
          obtain ⟨h1, -⟩ := h
          subst h1
          simp
      | jbad e =>
          cases e with
          | eof => simp [recvIter, decodeString, GoErr.isStreamClosed] at h
          | errClosed => simp [recvIter, decodeString, GoErr.isStreamClosed] at h
          | errorf msg =>
              simp [recvIter, decodeString, GoErr.isStreamClosed] at h
              obtain ⟨h1, -⟩ := h
              subst h1
              simp
          | other code =>
              simp [recvIter, decodeString, GoErr.isStreamClosed] at h
              obtain ⟨h1, -⟩ := h
              subst h1
              simp

/-- With fuel exceeding the wire length and the shutdown signal unset, the
recv routine always reaches its return, and the deferred close of the Recv
channel runs exactly once. -/
lemma recvLoopF_closeCount (reg : Registry) :
    ∀ (fuel : Nat) (s : RecvState), s.wire.length < fuel →
      (recvLoopF reg false fuel s).recvCloseCount = s.recvCloseCount + 1 := by
  intro fuel
  induction fuel with
  | zero => intro s h; exact absurd h (Nat.not_lt_zero _)
  | succ f ih =>
      intro s h
      cases hit : recvIter reg false s with
      | term s2 =>
          simp [recvLoopF, hit, recvIter_term_count hit]
      | cont s2 =>
          have hlt := recvIter_cont_wire_lt reg s s2 hit
          have := ih s2 (by omega)
          simp [recvLoopF, hit, this, recvIter_cont_count hit]

/-- When the wire holds exactly the frames of a list of values, each name
resolving on the receiving registry to the sent value's runtime type, the
recv routine delivers precisely those values in wire order, reports no
errors, and then hits end of stream and closes the Recv channel. -/
lemma recvLoopF_delivers (sreg rreg : Registry) :
    ∀ (vals : List GoValue) (fuel : Nat) (s : RecvState),
      vals.length < fuel →
      (∀ v ∈ vals,
        createTypeInterfaceReflectPointer rreg
          ((getAllowedTypeName sreg v).getD "") = some v.type) →
      s.wire = framesOf sreg vals →
      recvLoopF rreg false fuel s =
        ⟨[], s.errq, s.delivered ++ vals, s.recvCloseCount + 1⟩ := by
  intro vals
  induction vals with
  | nil =>
      intro fuel s hfuel hres hw
      cases fuel with
      | zero => exact absurd hfuel (Nat.not_lt_zero _)
      | succ f =>
          obtain ⟨wire, errq, delivered, cnt⟩ := s
          simp [framesOf] at hw
          subst hw
          simp [recvLoopF, recvIter, decodeString, GoErr.isStreamClosed]
  | cons v rest ih =>
      intro fuel s hfuel hres hw
      cases fuel with
      | zero => exact absurd hfuel (Nat.not_lt_zero _)
      | succ f =>
          obtain ⟨wire, errq, delivered, cnt⟩ := s
          have hv := hres v (by simp)
          have hrest : ∀ w ∈ rest,
              createTypeInterfaceReflectPointer rreg
                ((getAllowedTypeName sreg w).getD "") = some w.type :=
            fun w hw2 => hres w (by simp [hw2])
          simp only [framesOf, frameOf, List.cons_append, List.nil_append] at hw
          subst hw
          have step : recvIter rreg false
              ⟨WireTok.jstr ((getAllowedTypeName sreg v).getD "") ::
                 WireTok.jval v :: framesOf sreg rest, errq, delivered, cnt⟩ =
              IterOut.cont ⟨framesOf sreg rest, errq, delivered ++ [v], cnt⟩ := by
            simp [recvIter, decodeString, hv, decodeInto]
          have ihres := ih f ⟨framesOf sreg rest, errq, delivered ++ [v], cnt⟩
            (by simpa using Nat.lt_of_succ_lt_succ hfuel) hrest rfl
          simp only [recvLoopF, step, ihres, List.append_assoc, List.cons_append,
            List.nil_append]

/-- When the shutdown signal is unset, an iteration of the recv routine
returns only because a read of the type name, or a decode of the payload of
a resolved frame, failed with a stream-closed-class error (io.EOF or
net.ErrClosed, including end of stream). -/
lemma recvIter_term_cause {reg : Registry} {s s2 : RecvState}
    (h : recvIter reg false s = IterOut.term s2) :
    (∃ e rest, decodeString s.wire = (Except.error e, rest) ∧
      e.isStreamClosed = true) ∨
    (∃ nm rest t e rest2, decodeString s.wire = (Except.ok nm, rest) ∧
      createTypeInterfaceReflectPointer reg nm = some t ∧
      decodeInto t rest = (Except.error e, rest2) ∧
      e.isStreamClosed = true) := by
  unfold recvIter at h
  split at h
  · simp_all
  · split at h
    · rename_i e wire2 heq
      split at h
      · rename_i hcl
        exact Or.inl ⟨e, wire2, heq, hcl⟩
      · exact IterOut.noConfusion h
    · rename_i nm wire2 heq
      split at h
      · exact IterOut.noConfusion h
      · rename_i t hc
        split at h
        · rename_i e wire3 heq2
          split at h
          · rename_i hcl
            exact Or.inr ⟨nm, wire2, t, e, wire3, heq, hc, heq2, hcl⟩
          · exact IterOut.noConfusion h
        · exact IterOut.noConfusion h

/-- Go map assignment on a list whose head has a different key skips the
head. -/
lemma mapInsert_cons_ne (k' : String) (t' : GoType) (rest : Registry)
    (k : String) (t : GoType) (h : (k' == k) = false) :
    mapInsert ((k', t') :: rest) k t = (k', t') :: mapInsert rest k t := by
  cases hr : rest.any (fun kv => kv.1 == k) with
  | true =>
      simp [mapInsert, List.any_cons, h, hr]
      intro heq
      rw [heq] at h
      simp at h
  | false => simp [mapInsert, List.any_cons, h, hr]

/-- After a Go map assignment the key is bound to the new descriptor: the
assignment overwrites any earlier binding. -/
lemma mapInsert_find (m : Registry) (k : String) (t : GoType) :
    (mapInsert m k t).find? (fun kv => kv.1 == k) = some (k, t) := by
  induction m with
  | nil => simp [mapInsert]
  | cons kv rest ih =>
      obtain ⟨k', t'⟩ := kv
      cases hk : k' == k with
      | true =>
          have : k' = k := by
            have := hk
            simpa [beq_iff_eq] using this
          subst this
          simp [mapInsert, List.any_cons]
      | false =>
          rw [mapInsert_cons_ne k' t' rest k t hk]
          simp [List.find?, hk, ih]

/-- When the key is already present, Go map assignment leaves the key list
unchanged. -/
lemma mapInsert_keys_mem (m : Registry) (k : String) (t : GoType)
    (h : m.any (fun kv => kv.1 == k) = true) :
    (mapInsert m k t).map Prod.fst = m.map Prod.fst := by
  simp only [mapInsert, h, if_true, List.map_map]
  apply List.map_congr_left
  intro kv _
  cases hk : kv.1 == k with
  | true =>
      have : kv.1 = k := by simpa [beq_iff_eq] using hk
      simp [Function.comp, hk, this]
  | false => simp [Function.comp, hk]

/-- When the key is absent, Go map assignment appends it to the key list. -/
lemma mapInsert_keys_not_mem (m : Registry) (k : String) (t : GoType)
    (h : m.any (fun kv => kv.1 == k) = false) :
    (mapInsert m k t).map Prod.fst = m.map Prod.fst ++ [k] := by
  simp [mapInsert, h]

/-- Go map assignment preserves distinctness of the key list. -/
lemma mapInsert_keys_nodup (m : Registry) (k : String) (t : GoType)
    (h : (m.map Prod.fst).Nodup) :
    ((mapInsert m k t).map Prod.fst).Nodup := by
  cases ha : m.any (fun kv => kv.1 == k) with
  | true => rw [mapInsert_keys_mem m k t ha]; exact h
  | false =>
      rw [mapInsert_keys_not_mem m k t ha]
      have hk : k ∉ m.map Prod.fst := by
        intro hmem
        obtain ⟨kv, hkv, hfst⟩ := List.mem_map.mp hmem
        have : m.any (fun kv => kv.1 == k) = true :=
          List.any_eq_true.mpr ⟨kv, hkv, by simp [hfst]⟩
        rw [ha] at this
        exact Bool.noConfusion this
      simp [List.nodup_append, h, hk]

/-- The registry built by NewWebChan always has pairwise-distinct names,
whatever prototype values are passed: duplicates overwrite, never fail. -/
lemma newWebChanRegistry_keys_nodup (vals : List GoValue) :
    ((newWebChanRegistry vals).map Prod.fst).Nodup := by
  suffices h : ∀ (l : List GoValue) (m : Registry), (m.map Prod.fst).Nodup →
      ((l.foldl (fun m v => mapInsert m v.type.tname v.type) m).map
        Prod.fst).Nodup by
    exact h vals [] (by simp)
  intro l
  induction l with
  | nil => intro m hm; simpa using hm
  | cons v rest ih =>
      intro m hm
      exact ih _ (mapInsert_keys_nodup _ _ _ hm)

/-- C1: for every registered type and valid instance v, sending v writes the
frame as the registered type name followed by the encoded payload, and the
connected peer (whose registry maps that name to the same runtime type)
decodes the payload into a fresh instance of that type and delivers it
unwrapped, equal to v, with no errors reported. -/
theorem C1_round_trip (sreg rreg : Registry) (v : GoValue) (name : String)
    (hs : getAllowedTypeName sreg v = some name)
    (hr : createTypeInterfaceReflectPointer rreg name = some v.type) :
    (sendLoop sreg encOk sendState0 [v]).1.wire =
      [WireTok.jstr name, WireTok.jval v] ∧
    (recvLoop rreg false
      (recvState0 [WireTok.jstr name, WireTok.jval v])).delivered = [v] ∧
    (recvLoop rreg false
      (recvState0 [WireTok.jstr name, WireTok.jval v])).errq = [] := by
  have hframe : framesOf sreg [v] = [WireTok.jstr name, WireTok.jval v] := by
    simp [framesOf, frameOf, hs]
  have hrecv := recvLoopF_delivers sreg rreg [v] 3
    (recvState0 [WireTok.jstr name, WireTok.jval v]) (by simp)
    (by
      intro w hw
      simp only [List.mem_singleton] at hw
      subst hw
      simp [hs, hr])
    (by simp [recvState0, hframe])
  refine ⟨?_, ?_, ?_⟩
  · simp [sendLoop, sendStep, hs, encOk, sendState0]
  · simp only [recvLoop, recvState0] at hrecv ⊢
    simp [hrecv]
  · simp only [recvLoop, recvState0] at hrecv ⊢
    simp [hrecv]

/-- C1 witness: the spec scenario value registered as greeting round trips. -/
theorem C1_round_trip_witness :
    getAllowedTypeName reg1 vHello = some "greeting" ∧
    createTypeInterfaceReflectPointer reg1 "greeting" = some vHello.type ∧
    ((sendLoop reg1 encOk sendState0 [vHello]).1.wire =
      [WireTok.jstr "greeting", WireTok.jval vHello] ∧
     (recvLoop reg1 false
       (recvState0 [WireTok.jstr "greeting", WireTok.jval vHello])).delivered =
         [vHello] ∧
     (recvLoop reg1 false
       (recvState0 [WireTok.jstr "greeting", WireTok.jval vHello])).errq = []) :=
  ⟨by decide, by decide,
   C1_round_trip reg1 reg1 vHello "greeting" (by decide) (by decide)⟩

/-- C2: per-direction FIFO ordering.  The single send routine writes the
frames of the enqueued values in exactly the enqueue order, and the recv
routine delivers the decoded values to the inbound queue in exactly the
order their frames appear on the wire. -/
theorem C2_fifo_order (sreg rreg : Registry) (vals : List GoValue)
    (hs : ∀ v ∈ vals, (getAllowedTypeName sreg v).isSome = true)
    (hr : ∀ v ∈ vals, createTypeInterfaceReflectPointer rreg
        ((getAllowedTypeName sreg v).getD "") = some v.type) :
    (sendLoop sreg encOk sendState0 vals).1.wire = framesOf sreg vals ∧
    (recvLoop rreg false (recvState0 (framesOf sreg vals))).delivered = vals := by
  constructor
  · simpa [sendState0] using (sendLoop_encOk_spec sreg vals sendState0 hs).2.1
  · have hlen : vals.length < (framesOf sreg vals).length + 1 := by
      rw [framesOf_length]
      omega
    have h2 := recvLoopF_delivers sreg rreg vals ((framesOf sreg vals).length + 1)
      (recvState0 (framesOf sreg vals)) hlen hr (by simp [recvState0])
    simp only [recvLoop, recvState0] at h2 ⊢
    simp [h2]

/-- C2 witness: the spec scenario, a greeting then a point, is transmitted
and delivered in that order. -/
theorem C2_fifo_order_witness :
    (∀ v ∈ [vHello, vPoint], (getAllowedTypeName reg1 v).isSome = true) ∧
    ((sendLoop reg1 encOk sendState0 [vHello, vPoint]).1.wire =
      framesOf reg1 [vHello, vPoint] ∧
     (recvLoop reg1 false
       (recvState0 (framesOf reg1 [vHello, vPoint]))).delivered =
         [vHello, vPoint]) :=
  ⟨by decide, C2_fifo_order reg1 reg1 [vHello, vPoint] (by decide) (by decide)⟩

/-- C3: dequeuing a value whose runtime type is not registered makes the
send routine panic with the contract-violation value before any encoding,
so the wire is left exactly as it was: no part of a frame is written. -/
theorem C3_unregistered_send_writes_nothing (reg : Registry)
    (enc : Nat → Option GoErr) (s : SendState) (v : GoValue)
    (h : getAllowedTypeName reg v = none) :
    (sendLoop reg enc s [v]).1.wire = s.wire ∧
    (sendLoop reg enc s [v]).2 =
      some (ErrVal.send ⟨GoErr.errorf ("type not allowed: " ++ v.type.tname)⟩) := by
  constructor
  · simp [sendLoop, sendStep, h]
  · simp [sendLoop, sendStep, h]

/-- C3 witness: sending the unregistered point value on a channel that only
registers the string type panics and leaves the wire untouched. -/
theorem C3_unregistered_send_writes_nothing_witness :
    getAllowedTypeName regStr vPoint = none ∧
    ((sendLoop regStr encOk ⟨[WireTok.jstr "x"], [], 3, 1⟩ [vPoint]).1.wire =
      [WireTok.jstr "x"] ∧
     (sendLoop regStr encOk ⟨[WireTok.jstr "x"], [], 3, 1⟩ [vPoint]).2 =
      some (ErrVal.send
        ⟨GoErr.errorf ("type not allowed: " ++ vPoint.type.tname)⟩)) :=
  ⟨by decide,
   C3_unregistered_send_writes_nothing regStr encOk
     ⟨[WireTok.jstr "x"], [], 3, 1⟩ vPoint (by decide)⟩

/-- C4: an incoming frame whose type name is not registered makes the recv
routine push a Recv error (when the error queue has room) and continue to
the next iteration without terminating; the payload item of the frame is
not consumed, so the next iteration's read takes the payload item as the
next type name. -/
theorem C4_unregistered_name_recv_continue (reg : Registry) (s : RecvState)
    (name : String) (tail : List WireTok)
    (hw : s.wire = WireTok.jstr name :: tail)
    (hn : createTypeInterfaceReflectPointer reg name = none)
    (hq : s.errq.length < errChanCap) :
    recvIter reg false s = IterOut.cont { s with
      wire := tail
      errq := s.errq ++
        [ErrVal.recv ⟨GoErr.errorf ("type not allowed: " ++ name)⟩] } := by
  simp [recvIter, hw, decodeString, hn, tryPushError, hq]

/-- C4 witness: a frame named bogus is reported and its payload item stays
at the head of the wire. -/
theorem C4_unregistered_name_recv_continue_witness :
    createTypeInterfaceReflectPointer reg1 "bogus" = none ∧
    recvIter reg1 false (recvState0 [WireTok.jstr "bogus", WireTok.jval vHello]) =
      IterOut.cont { recvState0 [WireTok.jstr "bogus", WireTok.jval vHello] with
        wire := [WireTok.jval vHello]
        errq := (recvState0 [WireTok.jstr "bogus", WireTok.jval vHello]).errq ++
          [ErrVal.recv ⟨GoErr.errorf ("type not allowed: " ++ "bogus")⟩] } :=
  ⟨by decide,
   C4_unregistered_name_recv_continue reg1
     (recvState0 [WireTok.jstr "bogus", WireTok.jval vHello]) "bogus"
     [WireTok.jval vHello] (by decide) (by decide) (by decide)⟩

/-- C5: Close is idempotent: the first call sets the shutdown signal, closes
the Send channel and closes the socket exactly once; a second call is a
no-op, so the socket close does not run twice; and the recv routine, once it
terminates, closes the peer-facing Recv channel exactly once. -/
theorem C5_close_idempotent :
    (∀ wc : WebChan, wc.Close.Close = wc.Close) ∧
    (∀ wc : WebChan, wc.closeRecvClosed = false →
      wc.Close.closeRecvClosed = true ∧ wc.Close.sendClosed = true ∧
      wc.Close.socClosed = true ∧
      wc.Close.socCloseCount = wc.socCloseCount + 1) ∧
    (∀ wc : WebChan, wc.closeRecvClosed = true → wc.Close = wc) ∧
    (∀ (reg : Registry) (wire : List WireTok),
      (recvLoop reg false (recvState0 wire)).recvCloseCount = 1) := by
  refine ⟨?_, ?_, ?_, ?_⟩
  · intro wc
    cases hc : wc.closeRecvClosed <;> simp [WebChan.Close, hc]
  · intro wc h
    simp [WebChan.Close, h]
  · intro wc h
    simp [WebChan.Close, h]
  · intro reg wire
    have := recvLoopF_closeCount reg (wire.length + 1) (recvState0 wire)
      (by simp [recvState0])
    simpa [recvLoop, recvState0] using this

/-- C5 witness: closing a freshly constructed channel twice closes the
socket once, and the second call changes nothing. -/
theorem C5_close_idempotent_witness :
    (NewWebChan 2 [vHello]).closeRecvClosed = false ∧
    ((NewWebChan 2 [vHello]).Close.closeRecvClosed = true ∧
     (NewWebChan 2 [vHello]).Close.sendClosed = true ∧
     (NewWebChan 2 [vHello]).Close.socClosed = true ∧
     (NewWebChan 2 [vHello]).Close.socCloseCount =
       (NewWebChan 2 [vHello]).socCloseCount + 1) ∧
    ((NewWebChan 2 [vHello]).Close.closeRecvClosed = true →
      (NewWebChan 2 [vHello]).Close.Close = (NewWebChan 2 [vHello]).Close) :=
  ⟨by decide,
   C5_close_idempotent.2.1 (NewWebChan 2 [vHello]) (by decide),
   fun h => C5_close_idempotent.2.2.1 (NewWebChan 2 [vHello]).Close h⟩

/-- Write oracle under which every encoder call fails with an ordinary
transport error. -/
def encFailAll : Nat → Option GoErr := fun _ => some (GoErr.other 3)

/-- Write oracle under which the first encoder call succeeds and every
later one fails with an ordinary transport error. -/
def encFailSnd : Nat → Option GoErr :=
  fun k => if k = 0 then none else some (GoErr.other 3)

/-- C6: the worker loops never terminate because of an ordinary transport or
codec error.  A write error on either encode of a registered value makes the
send routine push a Send error and continue, and whatever the write oracle
does the send routine processes its whole queue without panicking: only
closure of the Send channel ends it.  On the recv side, a read or decode
error that is not stream-closed-class makes the routine push a Recv error
and continue, while the shutdown signal, end of stream, and stream-closed
read or decode errors terminate it, and those are the only ways it
terminates. -/
theorem C6_loops_survive_errors :
    (∀ (reg : Registry) (enc : Nat → Option GoErr) (s : SendState)
        (v : GoValue) (name : String) (e : GoErr),
      getAllowedTypeName reg v = some name → enc s.encCalls = some e →
      ∃ s2, sendStep reg enc s v = Sum.inl s2 ∧
        s2.errq = tryPushError s.errq (ErrVal.send ⟨e⟩)) ∧
    (∀ (reg : Registry) (enc : Nat → Option GoErr) (s : SendState)
        (v : GoValue) (name : String) (e : GoErr),
      getAllowedTypeName reg v = some name → enc s.encCalls = none →
      enc (s.encCalls + 1) = some e →
      ∃ s2, sendStep reg enc s v = Sum.inl s2 ∧
        s2.errq = tryPushError s.errq (ErrVal.send ⟨e⟩)) ∧
    (∀ (reg : Registry) (enc : Nat → Option GoErr) (vals : List GoValue)
        (s : SendState),
      (∀ v ∈ vals, (getAllowedTypeName reg v).isSome = true) →
      (sendLoop reg enc s vals).2 = none ∧
      (sendLoop reg enc s vals).1.processed = s.processed + vals.length) ∧
    (∀ (reg : Registry) (s : RecvState) (e : GoErr) (tail : List WireTok),
      s.wire = WireTok.jbad e :: tail → e.isStreamClosed = false →
      recvIter reg false s = IterOut.cont { s with
        wire := tail
        errq := tryPushError s.errq (ErrVal.recv ⟨e⟩) }) ∧
    (∀ (reg : Registry) (s : RecvState) (name : String) (t : GoType)
        (e : GoErr) (tail : List WireTok),
      s.wire = WireTok.jstr name :: WireTok.jbad e :: tail →
      createTypeInterfaceReflectPointer reg name = some t →
      e.isStreamClosed = false →
      recvIter reg false s = IterOut.cont { s with
        wire := tail
        errq := tryPushError s.errq (ErrVal.recv ⟨e⟩) }) ∧
    (∀ (reg : Registry) (s : RecvState), recvIter reg true s = IterOut.term s) ∧
    (∀ (reg : Registry) (s : RecvState) (e : GoErr) (tail : List WireTok),
      s.wire = WireTok.jbad e :: tail → e.isStreamClosed = true →
      recvIter reg false s = IterOut.term { s with wire := tail }) ∧
    (∀ (reg : Registry) (s : RecvState), s.wire = [] →
      recvIter reg false s = IterOut.term { s with wire := [] }) ∧
    (∀ (reg : Registry) (s s2 : RecvState),
      recvIter reg false s = IterOut.term s2 →
      (∃ e rest, decodeString s.wire = (Except.error e, rest) ∧
        e.isStreamClosed = true) ∨
      (∃ nm rest t e rest2, decodeString s.wire = (Except.ok nm, rest) ∧
        createTypeInterfaceReflectPointer reg nm = some t ∧
        decodeInto t rest = (Except.error e, rest2) ∧
        e.isStreamClosed = true)) := by
  refine ⟨?_, ?_, ?_, ?_, ?_, ?_, ?_, ?_, ?_⟩
  · intro reg enc s v name e h1 h2
    refine ⟨{ s with
      errq := tryPushError s.errq (ErrVal.send ⟨e⟩)
      encCalls := s.encCalls + 1
      processed := s.processed + 1 }, by simp [sendStep, h1, h2], rfl⟩
  · intro reg enc s v name e h1 h2 h3
    refine ⟨{ s with
      wire := s.wire ++ [WireTok.jstr name]
      errq := tryPushError s.errq (ErrVal.send ⟨e⟩)
      encCalls := s.encCalls + 2
      processed := s.processed + 1 }, by simp [sendStep, h1, h2, h3], rfl⟩
  · intro reg enc vals s h
    exact sendLoop_processed reg enc vals s h
  · intro reg s e tail hw he
    simp [recvIter, hw, decodeString, he]
  · intro reg s name t e tail hw hn he
    simp [recvIter, hw, decodeString, hn, decodeInto, he]
  · intro reg s
    simp [recvIter]
  · intro reg s e tail hw he
    simp [recvIter, hw, decodeString, he]
  · intro reg s hw
    simp [recvIter, hw, decodeString, GoErr.isStreamClosed]
  · intro reg s s2 h
    exact recvIter_term_cause h

/-- C6 witness: concrete instances of each conjunct, with an ordinary write
or read error (other 3, other 7) and with stream-closed conditions. -/
theorem C6_loops_survive_errors_witness :
    (∃ s2, sendStep regStr encFailAll sendState0 vHello = Sum.inl s2 ∧
      s2.errq = tryPushError sendState0.errq (ErrVal.send ⟨GoErr.other 3⟩)) ∧
    (∃ s2, sendStep regStr encFailSnd sendState0 vHello = Sum.inl s2 ∧
      s2.errq = tryPushError sendState0.errq (ErrVal.send ⟨GoErr.other 3⟩)) ∧
    ((sendLoop regStr encFailAll sendState0 [vHello, vHello]).2 = none ∧
     (sendLoop regStr encFailAll sendState0 [vHello, vHello]).1.processed =
       sendState0.processed + 2) ∧
    (recvIter reg1 false
        (recvState0 [WireTok.jbad (GoErr.other 7), WireTok.jstr "greeting"]) =
      IterOut.cont
        { recvState0 [WireTok.jbad (GoErr.other 7), WireTok.jstr "greeting"] with
          wire := [WireTok.jstr "greeting"]
          errq := tryPushError
            (recvState0 [WireTok.jbad (GoErr.other 7),
              WireTok.jstr "greeting"]).errq
            (ErrVal.recv ⟨GoErr.other 7⟩) }) ∧
    (recvIter reg1 false
        (recvState0 [WireTok.jstr "greeting", WireTok.jbad (GoErr.other 7)]) =
      IterOut.cont
        { recvState0 [WireTok.jstr "greeting", WireTok.jbad (GoErr.other 7)] with
          wire := []
          errq := tryPushError
            (recvState0 [WireTok.jstr "greeting",
              WireTok.jbad (GoErr.other 7)]).errq
            (ErrVal.recv ⟨GoErr.other 7⟩) }) ∧
    (recvIter reg1 true (recvState0 [WireTok.jstr "greeting"]) =
      IterOut.term (recvState0 [WireTok.jstr "greeting"])) ∧
    (recvIter reg1 false (recvState0 [WireTok.jbad GoErr.errClosed]) =
      IterOut.term { recvState0 [WireTok.jbad GoErr.errClosed] with
        wire := ([] : List WireTok) }) ∧
    (recvIter reg1 false (recvState0 []) =
      IterOut.term { recvState0 [] with wire := ([] : List WireTok) }) ∧
    ((∃ e rest,
        decodeString (recvState0 [WireTok.jbad GoErr.eof]).wire =
          (Except.error e, rest) ∧ e.isStreamClosed = true) ∨
     (∃ nm rest t e rest2,
        decodeString (recvState0 [WireTok.jbad GoErr.eof]).wire =
          (Except.ok nm, rest) ∧
        createTypeInterfaceReflectPointer reg1 nm = some t ∧
        decodeInto t rest = (Except.error e, rest2) ∧
        e.isStreamClosed = true)) :=
  ⟨C6_loops_survive_errors.1 regStr encFailAll sendState0 vHello "string"
     (GoErr.other 3) (by decide) (by decide),
   C6_loops_survive_errors.2.1 regStr encFailSnd sendState0 vHello "string"
     (GoErr.other 3) (by decide) (by decide) (by decide),
   C6_loops_survive_errors.2.2.1 regStr encFailAll [vHello, vHello] sendState0
     (by decide),
   C6_loops_survive_errors.2.2.2.1 reg1
     (recvState0 [WireTok.jbad (GoErr.other 7), WireTok.jstr "greeting"])
     (GoErr.other 7) [WireTok.jstr "greeting"] (by decide) (by decide),
   C6_loops_survive_errors.2.2.2.2.1 reg1
     (recvState0 [WireTok.jstr "greeting", WireTok.jbad (GoErr.other 7)])
     "greeting" tString (GoErr.other 7) [] (by decide) (by decide) (by decide),
   C6_loops_survive_errors.2.2.2.2.2.1 reg1
     (recvState0 [WireTok.jstr "greeting"]),
   C6_loops_survive_errors.2.2.2.2.2.2.1 reg1
     (recvState0 [WireTok.jbad GoErr.errClosed]) GoErr.errClosed []
     (by decide) (by decide),
   C6_loops_survive_errors.2.2.2.2.2.2.2.1 reg1 (recvState0 []) (by decide),
   C6_loops_survive_errors.2.2.2.2.2.2.2.2 reg1
     (recvState0 [WireTok.jbad GoErr.eof])
     { recvState0 [WireTok.jbad GoErr.eof] with wire := ([] : List WireTok) }
     (by decide)⟩

/-- C7: the error queue's capacity is the constant 100, independent of the
caller's buffer length (which sizes only the Send and Recv queues), and the
push helper never blocks: with room it enqueues immediately, and when the
queue is full the error is dropped and the caller proceeds. -/
theorem C7_error_queue_bounded_lossy :
    (∀ (bufLength : Nat) (reg : Registry),
      (NewNamedWebChan bufLength reg).errCap = 100 ∧
      (NewNamedWebChan bufLength reg).sendCap = bufLength ∧
      (NewNamedWebChan bufLength reg).recvCap = bufLength) ∧
    (∀ (q : List ErrVal) (e : ErrVal), q.length < errChanCap →
      tryPushError q e = q ++ [e]) ∧
    (∀ (q : List ErrVal) (e : ErrVal), errChanCap ≤ q.length →
      tryPushError q e = q) := by
  refine ⟨?_, ?_, ?_⟩
  · intro b reg
    exact ⟨rfl, rfl, rfl⟩
  · intro q e h
    simp [tryPushError, h]
  · intro q e h
    simp [tryPushError]
    omega

/-- C7 witness: a push to an empty queue enqueues, a push to a queue holding
100 errors is dropped, and a channel built with buffer length 7 still has
error capacity 100. -/
theorem C7_error_queue_bounded_lossy_witness :
    ([] : List ErrVal).length < errChanCap ∧
    tryPushError [] (ErrVal.send ⟨GoErr.eof⟩) =
      [] ++ [ErrVal.send ⟨GoErr.eof⟩] ∧
    errChanCap ≤ (List.replicate 100 (ErrVal.recv ⟨GoErr.eof⟩)).length ∧
    tryPushError (List.replicate 100 (ErrVal.recv ⟨GoErr.eof⟩))
      (ErrVal.send ⟨GoErr.eof⟩) =
      List.replicate 100 (ErrVal.recv ⟨GoErr.eof⟩) ∧
    (NewNamedWebChan 7 reg1).errCap = 100 :=
  ⟨by decide,
   C7_error_queue_bounded_lossy.2.1 [] (ErrVal.send ⟨GoErr.eof⟩) (by decide),
   by decide,
   C7_error_queue_bounded_lossy.2.2
     (List.replicate 100 (ErrVal.recv ⟨GoErr.eof⟩))
     (ErrVal.send ⟨GoErr.eof⟩) (by decide),
   (C7_error_queue_bounded_lossy.1 7 reg1).1⟩

/-- Sample type named util.T from one package. -/
def tUtilA : GoType := ⟨11, "util.T"⟩

/-- Sample type also named util.T from a different package. -/
def tUtilB : GoType := ⟨12, "util.T"⟩

/-- Sample prototype value of the first util.T type. -/
def vUtilA : GoValue := ⟨tUtilA, 0⟩

/-- Sample prototype value of the second util.T type. -/
def vUtilB : GoValue := ⟨tUtilB, 0⟩

/-- C8 counterexample: constructing a channel from two prototypes whose
derived names collide does not fail; it silently returns the same channel
as registering only the second prototype, the first binding being
overwritten by Go map assignment. -/
theorem C8_duplicate_name_counterexample :
    NewWebChan 4 [vUtilA, vUtilB] = NewWebChan 4 [vUtilB] ∧
    (NewWebChan 4 [vUtilA, vUtilB]).allowedTypes = [("util.T", tUtilB)] := by
  constructor
  · decide
  · decide

/-- C8 amended: construction never fails on a duplicate name.  NewWebChan
builds its registry by Go map assignment, so a repeated name silently
overwrites the earlier binding (and a name lookup afterwards yields the
descriptor written last); the registry names are nevertheless always
pairwise distinct, and NewNamedWebChan's map argument cannot hold duplicate
names in the first place. -/
theorem C8_duplicate_name_amended :
    ∀ (bufLength : Nat) (vals : List GoValue),
      (NewWebChan bufLength vals).allowedTypes = newWebChanRegistry vals ∧
      ((NewWebChan bufLength vals).allowedTypes.map Prod.fst).Nodup ∧
      ∀ (m : Registry) (k : String) (t : GoType),
        createTypeInterfaceReflectPointer (mapInsert m k t) k = some t := by
  intro b vals
  refine ⟨rfl, newWebChanRegistry_keys_nodup vals, ?_⟩
  intro m k t
  simp [createTypeInterfaceReflectPointer, mapInsert_find]

/-- C9 counterexample: the fatal signal raised on sending an unregistered
value carries precisely a sendError value, so the carried value is a
Send-Error value, contradicting the claim that it is not. -/
theorem C9_panic_value_counterexample :
    sendStep regStr encOk sendState0 vPoint =
      Sum.inr (ErrVal.send ⟨GoErr.errorf "type not allowed: webchan.Point"⟩) ∧
    ErrVal.isSendError
      (ErrVal.send ⟨GoErr.errorf "type not allowed: webchan.Point"⟩) = true := by
  constructor
  · decide
  · decide

/-- C9 amended: the contract violation is distinguished from ordinary Send
errors by its delivery mechanism, not by the value's type: the send routine
raises it as a panic instead of pushing it onto the error queue (which is
left untouched), but the carried value is itself a sendError wrapping the
type-not-allowed message. -/
theorem C9_panic_carries_sendError (reg : Registry)
    (enc : Nat → Option GoErr) (s : SendState) (v : GoValue)
    (h : getAllowedTypeName reg v = none) :
    ∃ p : ErrVal, sendStep reg enc s v = Sum.inr p ∧ p.isSendError = true ∧
      sendLoop reg enc s [v] = (s, some p) := by
  refine ⟨ErrVal.send ⟨GoErr.errorf ("type not allowed: " ++ v.type.tname)⟩,
    ?_, rfl, ?_⟩
  · simp [sendStep, h]
  · simp [sendLoop, sendStep, h]

/-- C9 amended witness: the panic on sending the point value over a
string-only channel is a sendError and the error queue is untouched. -/
theorem C9_panic_carries_sendError_witness :
    getAllowedTypeName regStr vPoint = none ∧
    ∃ p : ErrVal,
      sendStep regStr encOk ⟨[], [ErrVal.recv ⟨GoErr.eof⟩], 3, 1⟩ vPoint =
        Sum.inr p ∧ p.isSendError = true ∧
      sendLoop regStr encOk ⟨[], [ErrVal.recv ⟨GoErr.eof⟩], 3, 1⟩ [vPoint] =
        (⟨[], [ErrVal.recv ⟨GoErr.eof⟩], 3, 1⟩, some p) :=
  ⟨by decide,
   C9_panic_carries_sendError regStr encOk
     ⟨[], [ErrVal.recv ⟨GoErr.eof⟩], 3, 1⟩ vPoint (by decide)⟩

/-- C10: after the first Close the Send channel is closed, and by the Go
channel-send semantics any subsequent attempt to enqueue on it panics: it
does not return an error, block, or get silently dropped, whatever the
queue length and capacity. -/
theorem C10_send_after_close_panics (wc : WebChan)
    (h : wc.closeRecvClosed = false) :
    wc.Close.sendClosed = true ∧
    ∀ (len cap : Nat),
      goChanSend wc.Close.sendClosed len cap = ChanSendOutcome.panicked := by
  have hs : wc.Close.sendClosed = true := by simp [WebChan.Close, h]
  exact ⟨hs, fun len cap => by simp [goChanSend, hs]⟩

/-- C10 witness: on a fresh channel, Close closes the Send channel and a
send on it panics (shown here with an empty queue of capacity 5). -/
theorem C10_send_after_close_panics_witness :
    (NewNamedWebChan 5 []).closeRecvClosed = false ∧
    ((NewNamedWebChan 5 []).Close.sendClosed = true ∧
     ∀ (len cap : Nat),
       goChanSend (NewNamedWebChan 5 []).Close.sendClosed len cap =
         ChanSendOutcome.panicked) :=
  ⟨by decide, C10_send_after_close_panics (NewNamedWebChan 5 []) (by decide)⟩

end Webchan
